import Mathlib

/-!
Shallow embedding of the BLE device-management core (`device_storage.rs`,
`device_info.rs`) and proofs about its registry, connection, resolution and
telemetry-decoding behaviour.

Modelling conventions:
* Rust `HashMap<u32, BluetoothDevice>` is modelled as an association list
  `List (Nat × BluetoothDevice)`; `iter_mut().find(...)` is `List.find?`
  (iteration order is irrelevant to the proved statements, which hold under
  the registry invariant of at most one record per MAC).
* The opaque `Arc<Peripheral>` handle is modelled as a `Nat` identity.
* Radio calls (`peripheral.connect/read/subscribe/is_connected`) are driven
  by explicit oracles, and the sequence of radio operations and sleeps a
  function issues is returned as a trace.
* `f32` arithmetic is modelled as exact rational arithmetic; at the payload
  values the claims mention (10000 and 0 scaled by 1/100) the `f32`
  computation is exact, so the models agree with the machine floats there.
* Rust slice indexing `value[i]` panics when out of bounds; it is embedded
  as `List.get?`, with result `none` standing for the index-out-of-bounds
  panic (abnormal termination).
-/

/-- `BluetoothDevice` from `device_info.rs`: MAC string, advertised name,
RSSI and the peripheral handle (modelled as an opaque `Nat`). -/
structure BluetoothDevice where
  mac_address : String
  name : String
  rssi : Int
  peripheral : Nat
deriving DecidableEq, Repr

/-- `DeviceStorage` from `device_storage.rs`: map of internal ids to devices
plus the next-id counter. -/
structure DeviceStorage where
  devices : List (Nat × BluetoothDevice)
  next_id : Nat
deriving DecidableEq, Repr

/-- `DeviceStorage::new()`: empty map, counter starts at 1. -/
def DeviceStorage.new : DeviceStorage :=
  { devices := [], next_id := 1 }

/-- The in-place update `iter_mut().find(...)` performs: the FIRST entry whose
device has the given MAC gets its `name`, `rssi` and `peripheral` replaced by
the observation's; every other entry (and every key) is untouched. -/
def updateFirst (device : BluetoothDevice) :
    List (Nat × BluetoothDevice) → List (Nat × BluetoothDevice)
  | [] => []
  | (id, e) :: rest =>
    if e.mac_address == device.mac_address then
      (id, { e with name := device.name, rssi := device.rssi,
                    peripheral := device.peripheral }) :: rest
    else
      (id, e) :: updateFirst device rest

/-- `DeviceStorage::add_or_update_device`: if a record with the observation's
MAC exists, update its name/RSSI/peripheral in place; otherwise insert the
observation under `next_id` and increment the counter. -/
def add_or_update_device (s : DeviceStorage) (device : BluetoothDevice) :
    DeviceStorage :=
  if (s.devices.find? (fun p => p.2.mac_address == device.mac_address)).isSome then
    { s with devices := updateFirst device s.devices }
  else
    { devices := s.devices ++ [(s.next_id, device)], next_id := s.next_id + 1 }

/-- `DeviceStorage::get_device`: lookup by id (non-mutating). -/
def get_device (s : DeviceStorage) (id : Nat) : Option BluetoothDevice :=
  (s.devices.find? (fun p => p.1 == id)).map Prod.snd

/-- `DeviceStorage::count_devices_by_name`: number of records whose name
equals `name` exactly. -/
def count_devices_by_name (s : DeviceStorage) (name : String) : Nat :=
  (s.devices.filter (fun p => p.2.name == name)).length

/-- The ids currently present in the registry, in insertion order. -/
def DeviceStorage.keys (s : DeviceStorage) : List Nat :=
  s.devices.map Prod.fst

/-- Folding a whole observation sequence through `add_or_update_device`. -/
def runObservations (s : DeviceStorage) (obs : List BluetoothDevice) :
    DeviceStorage :=
  obs.foldl add_or_update_device s

lemma updateFirst_map_fst (d : BluetoothDevice)
    (l : List (Nat × BluetoothDevice)) :
    (updateFirst d l).map Prod.fst = l.map Prod.fst := by
  induction l with
  | nil => rfl
  | cons p rest ih =>
    obtain ⟨id, e⟩ := p
    by_cases h : e.mac_address == d.mac_address <;>
      simp [updateFirst, h, ih]

lemma add_or_update_keys_next_id (s : DeviceStorage) (d : BluetoothDevice) :
    (add_or_update_device s d).keys = s.keys ∧
      (add_or_update_device s d).next_id = s.next_id ∨
    (add_or_update_device s d).keys = s.keys ++ [s.next_id] ∧
      (add_or_update_device s d).next_id = s.next_id + 1 := by
  unfold add_or_update_device
  by_cases h : (s.devices.find? (fun p => p.2.mac_address == d.mac_address)).isSome
  · left
    simp [h, DeviceStorage.keys, updateFirst_map_fst]
  · right
    simp [h, DeviceStorage.keys]

/-- Registry invariant used for C2: the keys are exactly `1, 2, …, next_id - 1`
in insertion order. -/
def GoodKeys (s : DeviceStorage) : Prop :=
  ∃ k, s.next_id = k + 1 ∧ s.keys = List.range' 1 k

lemma goodKeys_new : GoodKeys DeviceStorage.new :=
  ⟨0, rfl, rfl⟩

lemma goodKeys_step (s : DeviceStorage) (d : BluetoothDevice)
    (h : GoodKeys s) : GoodKeys (add_or_update_device s d) := by
  obtain ⟨k, hn, hk⟩ := h
  rcases add_or_update_keys_next_id s d with ⟨hK, hN⟩ | ⟨hK, hN⟩
  · exact ⟨k, by rw [hN, hn], by rw [hK, hk]⟩
  · refine ⟨k + 1, by rw [hN, hn], ?_⟩
    rw [hK, hk, hn, List.range'_concat]
    simp [Nat.add_comm]

lemma goodKeys_run (s : DeviceStorage) (obs : List BluetoothDevice)
    (h : GoodKeys s) : GoodKeys (runObservations s obs) := by
  induction obs generalizing s with
  | nil => exact h
  | cons d rest ih => exact ih _ (goodKeys_step s d h)

/-- The field transfer an in-place update performs: keep `e`'s MAC, take the
observation's name, RSSI and peripheral handle. -/
def absorb (e d : BluetoothDevice) : BluetoothDevice :=
  { e with name := d.name, rssi := d.rssi, peripheral := d.peripheral }

lemma getLastD_irrel (l : List BluetoothDevice) (a b : BluetoothDevice)
    (hn : a.name = b.name) (hr : a.rssi = b.rssi)
    (hp : a.peripheral = b.peripheral) :
    (l.getLastD a).name = (l.getLastD b).name ∧
    (l.getLastD a).rssi = (l.getLastD b).rssi ∧
    (l.getLastD a).peripheral = (l.getLastD b).peripheral := by
  cases l with
  | nil => exact ⟨hn, hr, hp⟩
  | cons c rest =>
    have hs : ((c :: rest).getLast?).isSome :=
      List.getLast?_isSome.mpr (by simp)
    obtain ⟨x, hx⟩ := Option.isSome_iff_exists.mp hs
    simp [List.getLastD_eq_getLast?, hx]

lemma foldl_absorb_closed (rest : List BluetoothDevice) (e : BluetoothDevice) :
    rest.foldl absorb e =
      { mac_address := e.mac_address, name := (rest.getLastD e).name,
        rssi := (rest.getLastD e).rssi,
        peripheral := (rest.getLastD e).peripheral } := by
  induction rest generalizing e with
  | nil => rfl
  | cons d rest' ih =>
    have h := getLastD_irrel rest' (absorb e d) d rfl rfl rfl
    simp only [List.foldl_cons, ih (absorb e d), List.getLastD_cons]
    rw [h.1, h.2.1, h.2.2]
    rfl

lemma run_single (mac : String) (obs : List BluetoothDevice) :
    ∀ (i n : Nat) (e : BluetoothDevice), e.mac_address = mac →
    (∀ d ∈ obs, d.mac_address = mac) →
    runObservations ⟨[(i, e)], n⟩ obs = ⟨[(i, obs.foldl absorb e)], n⟩ := by
  induction obs with
  | nil => intro i n e _ _; rfl
  | cons d rest ih =>
    intro i n e he hobs
    have hd : d.mac_address = mac := hobs d (List.mem_cons_self d rest)
    have hfind : ((⟨[(i, e)], n⟩ : DeviceStorage).devices.find?
        (fun p => p.2.mac_address == d.mac_address)).isSome := by
      simp [List.find?, he, hd]
    show runObservations (add_or_update_device ⟨[(i, e)], n⟩ d) rest = _
    have hstep : add_or_update_device ⟨[(i, e)], n⟩ d =
        ⟨[(i, absorb e d)], n⟩ := by
      simp only [add_or_update_device, hfind, if_pos]
      simp [updateFirst, he, hd, absorb]
    rw [hstep, ih i n (absorb e d) (by simpa [absorb] using he)
      (fun x hx => hobs x (List.mem_cons_of_mem d hx))]
    rfl

lemma first_insert (d : BluetoothDevice) :
    add_or_update_device DeviceStorage.new d = ⟨[(1, d)], 2⟩ := rfl

/-- C1. Dedup invariant: folding a non-empty observation sequence that shares
one MAC through `add_or_update_device` starting from the fresh registry leaves
exactly one record, stored under id 1 — the id assigned when the first call
inserted it — carrying the last observation's name, RSSI and peripheral
handle; and, in general, re-observing a known MAC updates the record in place,
changing no id and not touching the next-id counter. -/
theorem dedup_invariant :
    (∀ (d0 : BluetoothDevice) (rest : List BluetoothDevice) (mac : String),
      d0.mac_address = mac → (∀ d ∈ rest, d.mac_address = mac) →
      ∃ dev : BluetoothDevice,
        (runObservations DeviceStorage.new (d0 :: rest)).devices = [(1, dev)] ∧
        dev.mac_address = mac ∧
        dev.name = (rest.getLastD d0).name ∧
        dev.rssi = (rest.getLastD d0).rssi ∧
        dev.peripheral = (rest.getLastD d0).peripheral) ∧
    (∀ (s : DeviceStorage) (d : BluetoothDevice),
      (s.devices.find? (fun p => p.2.mac_address == d.mac_address)).isSome →
      (add_or_update_device s d).keys = s.keys ∧
      (add_or_update_device s d).next_id = s.next_id) := by
  constructor
  · intro d0 rest mac h0 hrest
    refine ⟨rest.foldl absorb d0, ?_, ?_⟩
    · show (runObservations (add_or_update_device DeviceStorage.new d0)
        rest).devices = _
      rw [first_insert, run_single mac rest 1 2 d0 h0 hrest]
    · rw [foldl_absorb_closed]
      exact ⟨h0, rfl, rfl, rfl⟩
  · intro s d h
    constructor
    · simp [add_or_update_device, h, DeviceStorage.keys, updateFirst_map_fst]
    · simp [add_or_update_device, h]

/-- Sample observation: first sighting of a device. -/
def devA : BluetoothDevice := ⟨"AA:BB", "MJ_HT_V1", -60, 7⟩

/-- Sample observation: re-sighting of `devA`'s MAC with new RSSI/handle. -/
def devA2 : BluetoothDevice := ⟨"AA:BB", "MJ_HT_V1", -55, 8⟩

/-- Sample observation with a distinct MAC. -/
def devB : BluetoothDevice := ⟨"CC:DD", "Unknown Device", 0, 9⟩

/-- Witness for C1 at the spec's own scenario: `AA:BB` observed twice. -/
theorem dedup_invariant_witness :
    (∃ dev : BluetoothDevice,
      (runObservations DeviceStorage.new (devA :: [devA2])).devices =
        [(1, dev)] ∧
      dev.mac_address = "AA:BB" ∧
      dev.name = ([devA2].getLastD devA).name ∧
      dev.rssi = ([devA2].getLastD devA).rssi ∧
      dev.peripheral = ([devA2].getLastD devA).peripheral) ∧
    ((add_or_update_device ⟨[(1, devA)], 2⟩ devA2).keys =
        (DeviceStorage.mk [(1, devA)] 2).keys ∧
      (add_or_update_device ⟨[(1, devA)], 2⟩ devA2).next_id =
        (DeviceStorage.mk [(1, devA)] 2).next_id) :=
  ⟨dedup_invariant.1 devA [devA2] "AA:BB" rfl (by decide),
   dedup_invariant.2 ⟨[(1, devA)], 2⟩ devA2 (by decide)⟩

/-- C2. ID monotonicity: from the fresh registry, after any observation
sequence the stored ids are exactly `1, 2, …, next_id - 1` in insertion order
(so ids of genuinely new MACs start at 1, strictly increase and are never
reused); `add_or_update_device` never decreases the counter and never removes
a key; and an insertion (no existing record with the MAC) stores the record
under the current counter and increments the counter by one. -/
theorem id_monotonicity :
    (∀ obs : List BluetoothDevice, ∃ k,
      (runObservations DeviceStorage.new obs).next_id = k + 1 ∧
      (runObservations DeviceStorage.new obs).keys = List.range' 1 k) ∧
    (∀ (s : DeviceStorage) (d : BluetoothDevice),
      s.next_id ≤ (add_or_update_device s d).next_id ∧
      ∃ tail, (add_or_update_device s d).keys = s.keys ++ tail) ∧
    (∀ (s : DeviceStorage) (d : BluetoothDevice),
      ¬ (s.devices.find? (fun p => p.2.mac_address == d.mac_address)).isSome →
      (add_or_update_device s d).devices = s.devices ++ [(s.next_id, d)] ∧
      (add_or_update_device s d).next_id = s.next_id + 1) := by
  refine ⟨?_, ?_, ?_⟩
  · intro obs
    exact goodKeys_run DeviceStorage.new obs goodKeys_new
  · intro s d
    rcases add_or_update_keys_next_id s d with ⟨hK, hN⟩ | ⟨hK, hN⟩
    · exact ⟨le_of_eq hN.symm, [], by rw [hK, List.append_nil]⟩
    · exact ⟨by omega, [s.next_id], hK⟩
  · intro s d h
    constructor <;> simp [add_or_update_device, h]

/-- Witness for C2: inserting two distinct MACs assigns ids 1 then 2. -/
theorem id_monotonicity_witness :
    (∃ k, (runObservations DeviceStorage.new [devA, devB]).next_id = k + 1 ∧
      (runObservations DeviceStorage.new [devA, devB]).keys =
        List.range' 1 k) ∧
    ((add_or_update_device ⟨[(1, devA)], 2⟩ devB).devices =
        [(1, devA)] ++ [(2, devB)] ∧
      (add_or_update_device ⟨[(1, devA)], 2⟩ devB).next_id = 2 + 1) :=
  ⟨id_monotonicity.1 [devA, devB],
   id_monotonicity.2.2 ⟨[(1, devA)], 2⟩ devB (by decide)⟩

/-- `i16::from_le_bytes([b0, b1])`: the 2-byte little-endian signed integer;
bytes are reduced mod 256 to mirror `u8`. -/
def i16_from_le_bytes (b0 b1 : Nat) : Int :=
  let u := (b0 % 256) + 256 * (b1 % 256)
  if u < 32768 then (u : Int) else (u : Int) - 65536

/-- `BluetoothDevice::parse_temperature`: reads `value[0]`, `value[1]`
unguarded and scales by `1/100`. `none` embeds the index-out-of-bounds panic;
`f32` arithmetic is modelled as exact rational arithmetic. -/
def parse_temperature (value : List Nat) : Option ℚ :=
  match value.get? 0, value.get? 1 with
  | some b0, some b1 => some ((i16_from_le_bytes b0 b1 : ℚ) / 100)
  | _, _ => none

/-- `BluetoothDevice::parse_humidity`: reads `value[2]`, `value[3]` unguarded
and scales by `1/100`; `none` embeds the index-out-of-bounds panic. -/
def parse_humidity (value : List Nat) : Option ℚ :=
  match value.get? 2, value.get? 3 with
  | some b2, some b3 => some ((i16_from_le_bytes b2 b3 : ℚ) / 100)
  | _, _ => none

/-- The spec's decode error kind; no such type exists in the source. -/
inductive DecodeError where
  | Truncated
deriving DecidableEq, Repr

/-- Modelled from the spec: `decode_scaled_int16_le(bytes, offset)` of §4.5,
which "fails with `DecodeError::Truncated` when fewer than `offset + 2` bytes
are available" and otherwise reads a 2-byte little-endian signed integer at
`offset` and divides it by 100. The source's decoders have no such length
check; this definition exists to state how they diverge from it. -/
def decode_scaled_int16_le_spec (bytes : List Nat) (offset : Nat) :
    Except DecodeError ℚ :=
  if bytes.length < offset + 2 then
    Except.error DecodeError.Truncated
  else
    match bytes.get? offset, bytes.get? (offset + 1) with
    | some b0, some b1 => Except.ok ((i16_from_le_bytes b0 b1 : ℚ) / 100)
    | _, _ => Except.error DecodeError.Truncated

/-- C4 counterexample: on the single-byte payload `[0x10]` the temperature
decode reads `value[1]` out of bounds, so the Rust code panics — embedded
result `none`, standing for abnormal termination — instead of returning a
`DecodeError::Truncated` value as the claim states (no `DecodeError` type
exists in the source); the spec-modelled decoder shows the claimed graceful
result for contrast. -/
theorem truncated_counterexample :
    parse_temperature [16] = none ∧ parse_humidity [16] = none ∧
    decode_scaled_int16_le_spec [16] 0 = Except.error DecodeError.Truncated :=
  ⟨rfl, rfl, rfl⟩

/-- C4 amended: for every payload with fewer than the needed bytes
(2 for temperature, 4 for humidity) the decode terminates abnormally with an
index-out-of-bounds panic (embedded as `none`) and returns no value; only the
spec-modelled decoder returns `DecodeError::Truncated` for short input. -/
theorem truncated_amended :
    (∀ p : List Nat, p.length < 2 → parse_temperature p = none) ∧
    (∀ p : List Nat, p.length < 4 → parse_humidity p = none) ∧
    (∀ (p : List Nat) (off : Nat), p.length < off + 2 →
      decode_scaled_int16_le_spec p off =
        Except.error DecodeError.Truncated) := by
  refine ⟨?_, ?_, ?_⟩
  · intro p h
    rcases p with _ | ⟨b0, _ | ⟨b1, rest⟩⟩ <;>
      simp_all [parse_temperature] <;> omega
  · intro p h
    rcases p with _ | ⟨b0, _ | ⟨b1, _ | ⟨b2, _ | ⟨b3, rest⟩⟩⟩⟩ <;>
      simp_all [parse_humidity] <;> omega
  · intro p off h
    simp [decode_scaled_int16_le_spec, h]

/-- Witness for C4's amended statement at concrete short payloads. -/
theorem truncated_amended_witness :
    parse_temperature [7] = none ∧ parse_humidity [7, 7, 7] = none ∧
    decode_scaled_int16_le_spec [] 5 = Except.error DecodeError.Truncated :=
  ⟨truncated_amended.1 [7] (by decide),
   truncated_amended.2.1 [7, 7, 7] (by decide),
   truncated_amended.2.2 [] 5 (by decide)⟩

/-- C5. Decode correctness: on any payload with at least 2 bytes the
temperature decode reads the 2-byte little-endian signed integer at offset 0
and divides it by 100 (float32 arithmetic modelled as exact rationals, which
it is at the claim's inputs); bytes `[0x10, 0x27]` (little-endian 10000)
decode to 100 and `[0x00, 0x00]` to 0. -/
theorem decode_correctness :
    (∀ (b0 b1 : Nat) (rest : List Nat),
      parse_temperature (b0 :: b1 :: rest) =
        some ((i16_from_le_bytes b0 b1 : ℚ) / 100)) ∧
    i16_from_le_bytes 16 39 = 10000 ∧
    parse_temperature [16, 39] = some 100 ∧
    parse_temperature [0, 0] = some 0 := by
  refine ⟨fun b0 b1 rest => rfl, by decide, ?_, ?_⟩ <;>
    norm_num [parse_temperature, i16_from_le_bytes]

/-- C10. Humidity offset and indexing safety: the humidity decode is pinned
to payload bytes 2–3 while temperature reads bytes 0–1; in the total
embedding, each decode succeeds exactly when its precondition (≥ 4 bytes for
humidity, ≥ 2 for temperature) holds, so the out-of-bounds branch is
unreachable under the precondition; on `[0x10, 0x27, 0x00, 0x00]` humidity
yields 0 (bytes 2–3) while temperature yields 100 (bytes 0–1). -/
theorem humidity_offset_safety :
    (∀ p : List Nat, (parse_humidity p).isSome ↔ 4 ≤ p.length) ∧
    (∀ p : List Nat, (parse_temperature p).isSome ↔ 2 ≤ p.length) ∧
    (∀ (b0 b1 b2 b3 : Nat) (rest : List Nat),
      parse_humidity (b0 :: b1 :: b2 :: b3 :: rest) =
        some ((i16_from_le_bytes b2 b3 : ℚ) / 100)) ∧
    parse_humidity [16, 39, 0, 0] = some 0 ∧
    parse_temperature [16, 39, 0, 0] = some 100 := by
  refine ⟨?_, ?_, fun b0 b1 b2 b3 rest => rfl, ?_, ?_⟩
  · intro p
    rcases p with _ | ⟨b0, _ | ⟨b1, _ | ⟨b2, _ | ⟨b3, rest⟩⟩⟩⟩ <;>
      simp [parse_humidity] <;> omega
  · intro p
    rcases p with _ | ⟨b0, _ | ⟨b1, rest⟩⟩ <;>
      simp [parse_temperature] <;> omega
  · norm_num [parse_humidity, i16_from_le_bytes]
  · norm_num [parse_temperature, i16_from_le_bytes]

/-- The observable outcome of `BluetoothDevice::connect`: how many radio
connect calls were issued, the backoff sleeps in seconds in order, and the
returned result. -/
structure ConnectTrace where
  attempts : Nat
  sleeps : List Nat
  result : Except String Unit
deriving Repr

/-- The `for attempt in 1..=3` loop body of `connect`: try the radio; on
success return `Ok` at once, on failure sleep `2^attempt` seconds and go on;
falling off the loop yields the retries-exhausted error. -/
def connectGo (radio : Nat → Bool) : List Nat → ConnectTrace
  | [] => ⟨0, [], Except.error "Failed to connect after multiple attempts"⟩
  | a :: rest =>
    if radio a then ⟨1, [], Except.ok ()⟩
    else
      let t := connectGo radio rest
      ⟨t.attempts + 1, 2 ^ a :: t.sleeps, t.result⟩

/-- `BluetoothDevice::connect`: attempts 1, 2, 3 with exponential backoff.
`alreadyConnected` records the session's connection state; the source body
performs no already-connected check, so the argument is never consulted.
`radio n` is the success of the n-th `peripheral.connect()` call. -/
def connect (alreadyConnected : Bool) (radio : Nat → Bool) : ConnectTrace :=
  connectGo radio [1, 2, 3]

/-- C3. Retry cap: when the radio connect always fails, `connect` issues
exactly 3 attempts, sleeps 2, 4, 8 seconds after failed attempts 1, 2, 3,
and returns the retries-exhausted connection error. -/
theorem retry_cap (b : Bool) (radio : Nat → Bool)
    (h : ∀ n, radio n = false) :
    connect b radio =
      ⟨3, [2, 4, 8],
        Except.error "Failed to connect after multiple attempts"⟩ := by
  simp [connect, connectGo, h]

/-- Witness for C3: the always-failing radio. -/
theorem retry_cap_witness :
    connect false (fun _ => false) =
      ⟨3, [2, 4, 8],
        Except.error "Failed to connect after multiple attempts"⟩ :=
  retry_cap false (fun _ => false) (fun _ => rfl)

/-- C9 counterexample: on an already-connected session whose radio reports
immediate success, `connect` still issues one underlying radio connect
attempt — the claimed no-op (zero radio attempts) is false, because the
source's `connect` never checks the connected state. -/
theorem connect_noop_counterexample :
    ¬ (connect true (fun _ => true)).attempts = 0 ∧
    (connect true (fun _ => true)).attempts = 1 := by
  constructor <;> decide

/-- C9 amended: `connect` ignores the already-connected state entirely — the
trace is identical whatever that state is — and it always issues at least one
radio connect attempt; when the first radio attempt succeeds (as it does on an
already-connected peripheral) it returns success after exactly one attempt
without sleeping. -/
theorem connect_ignores_connected :
    (∀ (b b' : Bool) (radio : Nat → Bool), connect b radio = connect b' radio) ∧
    (∀ (b : Bool) (radio : Nat → Bool), 1 ≤ (connect b radio).attempts) ∧
    (∀ (b : Bool) (radio : Nat → Bool), radio 1 = true →
      connect b radio = ⟨1, [], Except.ok ()⟩) := by
  refine ⟨fun b b' radio => rfl, ?_, ?_⟩
  · intro b radio
    by_cases h : radio 1 <;> simp [connect, connectGo, h]
  · intro b radio h
    simp [connect, connectGo, h]

/-- Witness for C9's amended statement. -/
theorem connect_ignores_connected_witness :
    connect true (fun _ => true) = connect false (fun _ => true) ∧
    1 ≤ (connect true (fun _ => true)).attempts ∧
    connect true (fun _ => true) = ⟨1, [], Except.ok ()⟩ :=
  ⟨connect_ignores_connected.1 true false (fun _ => true),
   connect_ignores_connected.2.1 true (fun _ => true),
   connect_ignores_connected.2.2 true (fun _ => true) rfl⟩

/-- `btleplug::api::CharPropFlags` restricted to the flags the code
consults. -/
structure CharProperties where
  read : Bool
  write : Bool
  notify : Bool
deriving DecidableEq, Repr

/-- A discovered GATT characteristic: rendered UUID string plus property
flags. The `uuid` field models `Uuid::to_string()`, whose hexadecimal digits
are rendered in lowercase. -/
structure Characteristic where
  uuid : String
  properties : CharProperties
deriving DecidableEq, Repr

/-- A discovered GATT service: rendered UUID string plus its
characteristics. -/
structure Service where
  uuid : String
  characteristics : List Characteristic
deriving DecidableEq, Repr

/-- `BluetoothDevice::find_characteristic`: scan `peripheral.services()` in
order; inside each service whose rendered UUID equals `service_uuid` by exact
string comparison, return the first characteristic whose rendered UUID equals
`characteristic_uuid`; when a matching service lacks the characteristic the
scan continues with the remaining services. -/
def find_characteristic (services : List Service) (su cu : String) :
    Option Characteristic :=
  match services with
  | [] => none
  | s :: rest =>
    if s.uuid == su then
      match s.characteristics.find? (fun c => c.uuid == cu) with
      | some c => some c
      | none => find_characteristic rest su cu
    else find_characteristic rest su cu

/-- ASCII lower-casing of one character (enough for hex digits and hyphens,
the only characters UUID strings hold). -/
def lowerHex (c : Char) : Char :=
  if 'A' ≤ c ∧ c ≤ 'Z' then Char.ofNat (c.toNat + 32) else c

/-- UUID string comparison that is case-insensitive on hex digits. -/
def uuidEqCI (a b : String) : Bool :=
  a.data.map lowerHex == b.data.map lowerHex

/-- Modelled from the spec: `find(tree, service_uuid, characteristic_uuid)`
of §4.3, which returns "the first exact UUID match, case-insensitive on hex
digits". Stated only to compare with the source's `find_characteristic`,
whose comparison is case-sensitive. -/
def find_characteristic_ci (services : List Service) (su cu : String) :
    Option Characteristic :=
  match services with
  | [] => none
  | s :: rest =>
    if uuidEqCI s.uuid su then
      match s.characteristics.find? (fun c => uuidEqCI c.uuid cu) with
      | some c => some c
      | none => find_characteristic_ci rest su cu
    else find_characteristic_ci rest su cu

/-- A radio operation or sleep issued by a session operation, in order. -/
inductive RadioOp where
  | connectOp
  | readOp
  | subscribeOp
  | sleepMs (ms : Nat)
deriving DecidableEq, Repr

/-- Structured error kinds of the session operations; each carries the
formatted message the source builds. -/
inductive BleErr where
  | notFound (msg : String)
  | unsupported (msg : String)
  | radio (msg : String)
deriving DecidableEq, Repr

/-- Oracle for one iteration of the subscribe retry loop: the
`is_connected()` answer, the outcome of the `peripheral.connect()` issued
when not connected, and the outcome of `peripheral.subscribe()`. -/
structure SubAttempt where
  connected : Bool
  connectOk : Bool
  subscribeOk : Bool
deriving DecidableEq, Repr

/-- The `for attempt in 1..=3` loop of `subscribe_to_notifications`:
reconnect when not connected (a failure propagates), subscribe, and on
failure sleep 2 seconds before the next attempt or return the error on the
last one. -/
def subscribeGo (oracle : Nat → SubAttempt) :
    List Nat → List RadioOp × Except BleErr Unit
  | [] => ([], Except.error (BleErr.radio "Failed to subscribe after 3 attempts"))
  | a :: rest =>
    let o := oracle a
    let pre : List RadioOp := if o.connected then [] else [RadioOp.connectOp]
    if !o.connected && !o.connectOk then
      (pre, Except.error (BleErr.radio "connect failed"))
    else if o.subscribeOk then
      (pre ++ [RadioOp.subscribeOp], Except.ok ())
    else if rest.isEmpty then
      (pre ++ [RadioOp.subscribeOp], Except.error (BleErr.radio "subscribe failed"))
    else
      let t := subscribeGo oracle rest
      (pre ++ [RadioOp.subscribeOp, RadioOp.sleepMs 2000] ++ t.1, t.2)

/-- `BluetoothDevice::subscribe_to_notifications`: resolve the characteristic
(not-found error when absent), fail fast with the unsupported-operation error
when the NOTIFY flag is missing, then run the subscribe retry loop. The
returned trace lists the radio operations and sleeps issued. -/
def subscribe_to_notifications (services : List Service) (su cu : String)
    (oracle : Nat → SubAttempt) : List RadioOp × Except BleErr Unit :=
  match find_characteristic services su cu with
  | none =>
    ([], Except.error (BleErr.notFound
      ("Characteristic with UUID " ++ cu ++ " not found in service " ++ su)))
  | some c =>
    if !c.properties.notify then
      ([], Except.error (BleErr.unsupported
        ("Characteristic with UUID " ++ cu ++ " does not support notifications")))
    else subscribeGo oracle [1, 2, 3]

/-- Oracle for one iteration of the read retry loop: the `is_connected()`
answer, the outcome of the nested retrying `connect()` issued when not
connected, and the radio read's result (`some value` for `Ok`). -/
structure ReadAttempt where
  connected : Bool
  connectOk : Bool
  readValue : Option (List Nat)
deriving DecidableEq, Repr

/-- The `for attempt in 1..=3` loop of `read_characteristic`: reconnect when
not connected (a failure propagates), read; a success sleeps 500 ms and
returns the bytes, a failure sleeps `2^attempt` seconds before the next
attempt or returns the error on the last one. -/
def readGo (oracle : Nat → ReadAttempt) :
    List Nat → List RadioOp × Except BleErr (List Nat)
  | [] => ([], Except.error (BleErr.radio "Failed to read characteristic after 3 attempts"))
  | a :: rest =>
    let o := oracle a
    let pre : List RadioOp := if o.connected then [] else [RadioOp.connectOp]
    if !o.connected && !o.connectOk then
      (pre, Except.error (BleErr.radio "connect failed"))
    else
      match o.readValue with
      | some v => (pre ++ [RadioOp.readOp, RadioOp.sleepMs 500], Except.ok v)
      | none =>
        if rest.isEmpty then
          (pre ++ [RadioOp.readOp], Except.error (BleErr.radio "read failed"))
        else
          let t := readGo oracle rest
          (pre ++ [RadioOp.readOp, RadioOp.sleepMs (2 ^ a * 1000)] ++ t.1, t.2)

/-- `BluetoothDevice::read_characteristic`: resolve the characteristic
(not-found error when absent — note: no READ-flag check), sleep 1 second,
then run the read retry loop. -/
def read_characteristic (services : List Service) (su cu : String)
    (oracle : Nat → ReadAttempt) : List RadioOp × Except BleErr (List Nat) :=
  match find_characteristic services su cu with
  | none =>
    ([], Except.error (BleErr.notFound
      ("Characteristic with UUID " ++ cu ++ " not found")))
  | some _ =>
    let t := readGo oracle [1, 2, 3]
    (RadioOp.sleepMs 1000 :: t.1, t.2)

lemma find?_eq_filter_head? {α : Type} (p : α → Bool) (l : List α) :
    l.find? p = (l.filter p).head? := by
  induction l with
  | nil => rfl
  | cons a rest ih =>
    cases h : p a with
    | true =>
      rw [List.find?_cons_of_pos rest h, List.filter_cons_of_pos h]
      rfl
    | false =>
      rw [List.find?_cons_of_neg rest (by simp [h]),
        List.filter_cons_of_neg (by simp [h]), ih]

/-- The MJ_HT_V1 temperature characteristic as discovered (lowercase
rendering, NOTIFY only). -/
def mjCharacteristic : Characteristic :=
  ⟨"226caa55-6476-4566-7562-66734470666d", ⟨false, false, true⟩⟩

/-- The MJ_HT_V1 data service as discovered (lowercase rendering). -/
def mjService : Service :=
  ⟨"226c0000-6476-4566-7562-66734470666d", [mjCharacteristic]⟩

/-- C6 counterexample: the discovered tree holds the MJ_HT_V1 service and its
temperature characteristic (UUID renderings are lowercase), yet querying with
the same UUIDs written in uppercase hex finds nothing, because the source
compares the strings exactly; the spec-modelled case-insensitive find does
match. So the comparison is not case-insensitive on hex digits. -/
theorem uuid_case_counterexample :
    find_characteristic [mjService] "226C0000-6476-4566-7562-66734470666D"
      "226CAA55-6476-4566-7562-66734470666D" = none ∧
    find_characteristic_ci [mjService] "226C0000-6476-4566-7562-66734470666D"
      "226CAA55-6476-4566-7562-66734470666D" = some mjCharacteristic := by
  constructor <;> decide

/-- C6 amended: `find_characteristic` returns the first characteristic whose
service and characteristic UUID renderings equal the request by exact
(case-sensitive) string comparison — equivalently, the head of the flattened
list of exact matches in scan order; and when no characteristic matches,
`read_characteristic` returns the not-found error whose message contains the
requested characteristic UUID, issuing no radio operation. -/
theorem characteristic_resolution :
    (∀ (services : List Service) (su cu : String),
      find_characteristic services su cu =
        ((services.filter (fun s => s.uuid == su)).flatMap
          (fun s => s.characteristics.filter (fun c => c.uuid == cu))).head?) ∧
    (∀ (services : List Service) (su cu : String)
      (oracle : Nat → ReadAttempt),
      find_characteristic services su cu = none →
      read_characteristic services su cu oracle =
        ([], Except.error (BleErr.notFound
          ("Characteristic with UUID " ++ cu ++ " not found"))) ∧
      ∃ pre post,
        "Characteristic with UUID " ++ cu ++ " not found" =
          pre ++ cu ++ post) := by
  constructor
  · intro services su cu
    induction services with
    | nil => rfl
    | cons s rest ih =>
      by_cases hs : s.uuid == su
      · rw [show find_characteristic (s :: rest) su cu =
            (match s.characteristics.find? (fun c => c.uuid == cu) with
             | some c => some c
             | none => find_characteristic rest su cu) by
            simp [find_characteristic, hs]]
        rw [find?_eq_filter_head?]
        have hfil : List.filter (fun x => x.uuid == su) (s :: rest) =
            s :: List.filter (fun x => x.uuid == su) rest := by
          simp [List.filter_cons, hs]
        rw [hfil, List.flatMap_cons]
        cases hf : s.characteristics.filter (fun c => c.uuid == cu) with
        | nil => simpa [hf] using ih
        | cons c cs => simp [hf]
      · rw [show find_characteristic (s :: rest) su cu =
            find_characteristic rest su cu by
            simp [find_characteristic, hs]]
        have hfil : List.filter (fun x => x.uuid == su) (s :: rest) =
            List.filter (fun x => x.uuid == su) rest := by
          simp [List.filter_cons, hs]
        rw [hfil]
        exact ih
  · intro services su cu oracle h
    refine ⟨?_, "Characteristic with UUID ", " not found", rfl⟩
    simp [read_characteristic, h]

/-- Witness for C6's amended statement: the humidity UUID is absent from a
tree holding only the temperature characteristic. -/
theorem characteristic_resolution_witness :
    (find_characteristic [mjService] "226c0000-6476-4566-7562-66734470666d"
      "226cbb55-6476-4566-7562-66734470666d" =
      (([mjService].filter
          (fun s => s.uuid == "226c0000-6476-4566-7562-66734470666d")).flatMap
        (fun s => s.characteristics.filter
          (fun c => c.uuid == "226cbb55-6476-4566-7562-66734470666d"))).head?) ∧
    (read_characteristic [mjService] "226c0000-6476-4566-7562-66734470666d"
      "226cbb55-6476-4566-7562-66734470666d" (fun _ => ⟨true, true, some []⟩) =
      ([], Except.error (BleErr.notFound
        ("Characteristic with UUID 226cbb55-6476-4566-7562-66734470666d"
          ++ " not found"))) ∧
      ∃ pre post,
        "Characteristic with UUID 226cbb55-6476-4566-7562-66734470666d"
          ++ " not found" =
          pre ++ "226cbb55-6476-4566-7562-66734470666d" ++ post) := by
  constructor
  · exact characteristic_resolution.1 [mjService] _ _
  · exact characteristic_resolution.2 [mjService]
      "226c0000-6476-4566-7562-66734470666d"
      "226cbb55-6476-4566-7562-66734470666d"
      (fun _ => ⟨true, true, some []⟩) (by decide)

/-- A characteristic lacking every property flag (READ included). -/
def noReadChar : Characteristic :=
  ⟨"00002a00-0000-1000-8000-00805f9b34fb", ⟨false, false, false⟩⟩

/-- A service holding only `noReadChar`. -/
def noReadService : Service :=
  ⟨"00001800-0000-1000-8000-00805f9b34fb", [noReadChar]⟩

/-- C7 counterexample: the resolved characteristic lacks the READ flag, yet
`read_characteristic` issues the radio read anyway and returns its value —
there is no unsupported-operation failure before the radio call, because the
source never checks the READ flag. -/
theorem read_flag_counterexample :
    noReadChar.properties.read = false ∧
    read_characteristic [noReadService] "00001800-0000-1000-8000-00805f9b34fb"
      "00002a00-0000-1000-8000-00805f9b34fb" (fun _ => ⟨true, true, some [1, 2]⟩) =
      ([RadioOp.sleepMs 1000, RadioOp.readOp, RadioOp.sleepMs 500],
        Except.ok [1, 2]) ∧
    RadioOp.readOp ∈ (read_characteristic [noReadService]
      "00001800-0000-1000-8000-00805f9b34fb"
      "00002a00-0000-1000-8000-00805f9b34fb"
      (fun _ => ⟨true, true, some [1, 2]⟩)).1 := by
  refine ⟨rfl, rfl, by decide⟩

/-- C7 amended: a subscription on a resolved characteristic lacking NOTIFY
fails fast with the unsupported-operation error before issuing any radio
operation; a characteristic read, however, performs no READ-flag check — for
every resolved characteristic, whatever its flags, the radio read is
issued. -/
theorem property_flag_checks :
    (∀ (services : List Service) (su cu : String)
      (oracle : Nat → SubAttempt) (c : Characteristic),
      find_characteristic services su cu = some c →
      c.properties.notify = false →
      subscribe_to_notifications services su cu oracle =
        ([], Except.error (BleErr.unsupported
          ("Characteristic with UUID " ++ cu
            ++ " does not support notifications")))) ∧
    (∀ (services : List Service) (su cu : String)
      (oracle : Nat → ReadAttempt) (c : Characteristic) (v : List Nat),
      find_characteristic services su cu = some c →
      oracle 1 = ⟨true, true, some v⟩ →
      read_characteristic services su cu oracle =
        ([RadioOp.sleepMs 1000, RadioOp.readOp, RadioOp.sleepMs 500],
          Except.ok v)) := by
  constructor
  · intro services su cu oracle c hfind hnotify
    simp [subscribe_to_notifications, hfind, hnotify]
  · intro services su cu oracle c v hfind horacle
    simp [read_characteristic, hfind, readGo, horacle]

/-- Witness for C7's amended statement on concrete trees and oracles. -/
theorem property_flag_checks_witness :
    subscribe_to_notifications [noReadService]
      "00001800-0000-1000-8000-00805f9b34fb"
      "00002a00-0000-1000-8000-00805f9b34fb" (fun _ => ⟨true, true, true⟩) =
      ([], Except.error (BleErr.unsupported
        ("Characteristic with UUID 00002a00-0000-1000-8000-00805f9b34fb"
          ++ " does not support notifications"))) ∧
    read_characteristic [noReadService]
      "00001800-0000-1000-8000-00805f9b34fb"
      "00002a00-0000-1000-8000-00805f9b34fb" (fun _ => ⟨true, true, some [5]⟩) =
      ([RadioOp.sleepMs 1000, RadioOp.readOp, RadioOp.sleepMs 500],
        Except.ok [5]) :=
  ⟨property_flag_checks.1 [noReadService] _ _ (fun _ => ⟨true, true, true⟩)
      noReadChar (by decide) rfl,
   property_flag_checks.2 [noReadService] _ _ (fun _ => ⟨true, true, some [5]⟩)
      noReadChar [5] (by decide) rfl⟩

/-- The MJ_HT_V1 temperature characteristic UUID constant of the source. -/
def temperature_uuid : String := "226caa55-6476-4566-7562-66734470666d"

/-- The MJ_HT_V1 humidity characteristic UUID constant of the source. -/
def humidity_uuid : String := "226cbb55-6476-4566-7562-66734470666d"

/-- A named sensor field the collection pipeline can populate. -/
inductive SensorField where
  | temperature
  | humidity
deriving DecidableEq, Repr

/-- `SensorReading` of the spec's data model: both fields required. -/
structure SensorReading where
  temperature : ℚ
  humidity : ℚ
deriving DecidableEq, Repr

/-- The collection failure of the spec's §4.4. -/
inductive CollectError where
  | Timeout
deriving DecidableEq, Repr

/-- One event of the session's notification stream: the characteristic UUID,
the payload bytes, and its arrival time in seconds from collection start. -/
structure NotificationEvent where
  uuid : String
  value : List Nat
  time : Nat
deriving DecidableEq, Repr

/-- The fields populated so far during one collection call. -/
structure CollectState where
  temp : Option ℚ
  hum : Option ℚ
deriving DecidableEq, Repr

/-- Matching one notification to a named field and decoding it via the
TelemetryDecoder; only the first value observed per field is retained, and a
payload the decoder cannot handle leaves the state unchanged. -/
def applyEvent (st : CollectState) (e : NotificationEvent) : CollectState :=
  if e.uuid == temperature_uuid then
    match st.temp, parse_temperature e.value with
    | none, some q => { st with temp := some q }
    | _, _ => st
  else if e.uuid == humidity_uuid then
    match st.hum, parse_humidity e.value with
    | none, some q => { st with hum := some q }
    | _, _ => st
  else st

/-- Whether a required field has been populated. -/
def fieldPopulated (st : CollectState) : SensorField → Bool
  | SensorField.temperature => st.temp.isSome
  | SensorField.humidity => st.hum.isSome

/-- Whether every required field has been populated at least once. -/
def completeFor (required : List SensorField) (st : CollectState) : Bool :=
  required.all (fieldPopulated st)

/-- Consuming the stream: an event past the deadline (or an exhausted stream)
times the collection out; otherwise the event is matched and decoded, and
collection stops right after the event that completes the required set,
leaving the remaining events unconsumed. -/
def collectGo (required : List SensorField) (deadline : Nat)
    (st : CollectState) :
    List NotificationEvent →
      Except CollectError SensorReading × List NotificationEvent
  | [] => (Except.error CollectError.Timeout, [])
  | e :: rest =>
    if deadline < e.time then
      (Except.error CollectError.Timeout, e :: rest)
    else
      let st' := applyEvent st e
      if completeFor required st' then
        (Except.ok ⟨st'.temp.getD 0, st'.hum.getD 0⟩, rest)
      else
        collectGo required deadline st' rest

/-- Modelled from the spec: `collect(session, required_fields, timeout)` of
§4.4. The repository's collection code (`BluetoothDevice::read_mj_ht_v1`,
called from `bluetooth_manager.rs`) is not among the source files — only its
caller is — so the operation is modelled from the spec's words: consume the
notification stream, match each arriving notification by characteristic UUID
to a named field, decode via the TelemetryDecoder, succeed as soon as every
required field has been populated at least once, and fail with
`CollectError::Timeout` when the deadline elapses first. -/
def collect (required : List SensorField) (events : List NotificationEvent)
    (deadline : Nat) :
    Except CollectError SensorReading × List NotificationEvent :=
  collectGo required deadline ⟨none, none⟩ events

lemma applyEvent_hum_of_ne (st : CollectState) (e : NotificationEvent)
    (h : e.uuid ≠ humidity_uuid) : (applyEvent st e).hum = st.hum := by
  unfold applyEvent
  by_cases ht : e.uuid == temperature_uuid
  · simp only [ht, if_pos]
    cases st.temp <;> cases parse_temperature e.value <;> rfl
  · have hh : (e.uuid == humidity_uuid) = false := by
      simpa using h
    simp [ht, hh]

lemma collectGo_timeout (required : List SensorField) (deadline : Nat)
    (events : List NotificationEvent) :
    ∀ st : CollectState, SensorField.humidity ∈ required → st.hum = none →
    (∀ e ∈ events, e.uuid ≠ humidity_uuid ∨ deadline < e.time) →
    (collectGo required deadline st events).1 =
      Except.error CollectError.Timeout := by
  induction events with
  | nil => intro st _ _ _; rfl
  | cons e rest ih =>
    intro st hreq hnone hev
    unfold collectGo
    by_cases hlate : deadline < e.time
    · simp [hlate]
    · have hne : e.uuid ≠ humidity_uuid := by
        rcases hev e (List.mem_cons_self e rest) with h | h
        · exact h
        · exact absurd h hlate
      have hhum : (applyEvent st e).hum = none :=
        (applyEvent_hum_of_ne st e hne).trans hnone
      have hincomplete : completeFor required (applyEvent st e) = false := by
        rcases h : completeFor required (applyEvent st e) with _ | _
        · rfl
        · exfalso
          have := (List.all_eq_true.mp h) SensorField.humidity hreq
          simp [fieldPopulated, hhum] at this
      simp only [hlate, if_neg, hincomplete, Bool.false_eq_true, if_false]
      exact ih (applyEvent st e) hreq hhum
        (fun x hx => hev x (List.mem_cons_of_mem e hx))

/-- C8. Collection termination (spec-modelled, the collection code being
absent from the source files): with required fields temperature and humidity,
a stream whose first two events are a decodable temperature notification and
then a decodable humidity notification, both within the deadline, makes
`collect` return the completed `SensorReading` immediately after the second
event, consuming no further notifications and not waiting for the timeout;
and whenever no humidity notification arrives within the deadline — so the
required set is never completed — it fails with `CollectError::Timeout`. -/
theorem collection_termination :
    (∀ (tv hv : List Nat) (tq hq : ℚ) (t1 t2 deadline : Nat)
      (rest : List NotificationEvent),
      parse_temperature tv = some tq → parse_humidity hv = some hq →
      t1 ≤ deadline → t2 ≤ deadline →
      collect [SensorField.temperature, SensorField.humidity]
        (⟨temperature_uuid, tv, t1⟩ :: ⟨humidity_uuid, hv, t2⟩ :: rest)
        deadline = (Except.ok ⟨tq, hq⟩, rest)) ∧
    (∀ (required : List SensorField) (events : List NotificationEvent)
      (deadline : Nat), SensorField.humidity ∈ required →
      (∀ e ∈ events, e.uuid ≠ humidity_uuid ∨ deadline < e.time) →
      (collect required events deadline).1 =
        Except.error CollectError.Timeout) := by
  constructor
  · intro tv hv tq hq t1 t2 deadline rest htv hhv h1 h2
    have hne : (humidity_uuid == temperature_uuid) = false := by decide
    simp [collect, collectGo, Nat.not_lt.mpr h1, Nat.not_lt.mpr h2,
      applyEvent, hne, htv, hhv, completeFor, fieldPopulated]
  · intro required events deadline hreq hev
    exact collectGo_timeout required deadline events ⟨none, none⟩ hreq rfl hev

/-- Witness for C8 at a concrete stream: temperature then humidity within the
deadline completes at once; a temperature-only stream times out. -/
theorem collection_termination_witness :
    collect [SensorField.temperature, SensorField.humidity]
      (⟨temperature_uuid, [0, 0], 0⟩ :: ⟨humidity_uuid, [0, 0, 16, 39], 1⟩ ::
        [⟨temperature_uuid, [1, 0], 2⟩]) 5 =
      (Except.ok ⟨(i16_from_le_bytes 0 0 : ℚ) / 100,
        (i16_from_le_bytes 16 39 : ℚ) / 100⟩,
        [⟨temperature_uuid, [1, 0], 2⟩]) ∧
    (collect [SensorField.temperature, SensorField.humidity]
      [⟨temperature_uuid, [0, 0], 0⟩] 5).1 =
      Except.error CollectError.Timeout :=
  ⟨collection_termination.1 [0, 0] [0, 0, 16, 39] _ _ 0 1 5
      [⟨temperature_uuid, [1, 0], 2⟩] rfl rfl (by decide) (by decide),
   collection_termination.2 [SensorField.temperature, SensorField.humidity]
      [⟨temperature_uuid, [0, 0], 0⟩] 5 (by decide) (by decide)⟩
